import Mathlib

/-
  Verification of the Quiz-Application backend core: the access-control
  decision functions (src/utils/auth.ts, class AuthUtils) and the
  quiz-attempt lifecycle (services/quizService.ts, class QuizService).

  The TypeScript code is shallowly embedded: Prisma storage becomes an
  explicit `StoreState` record threaded through the operations, JS numbers
  become `Int`/`ℚ` (with a dedicated `JsNumber` type where NaN/Infinity from
  division can arise), JS objects used as string-keyed maps become
  association lists, thrown `CustomError`s become `Except CustomError`.
-/

namespace QuizApp

/-- Prisma enum `Role`: the five user roles of the system. -/
inductive Role where
  | SUPER_ADMIN
  | GLOBAL_CONTENT_CREATOR
  | ADMIN
  | TEACHER
  | STUDENT
deriving DecidableEq, Repr

/-- The fields of `IUser` (src/types) consulted by the access-control
functions: `id`, `role`, and the optional `institutionId`
(`undefined` becomes `none`). -/
structure IUser where
  id : String
  role : Role
  institutionId : Option String
deriving DecidableEq, Repr

/-- AuthUtils.canAccessInstitution (src/utils/auth.ts lines 68-76):
super admin and global content creator can access all institutions;
other users only their own (strict `===` against the possibly-undefined
`user.institutionId`). -/
def canAccessInstitution (user : IUser) (institutionId : String) : Bool :=
  if user.role == Role.SUPER_ADMIN || user.role == Role.GLOBAL_CONTENT_CREATOR then
    true
  else
    user.institutionId == some institutionId

/-- AuthUtils.canManageUsers (src/utils/auth.ts lines 81-103): the
top-down role-branch chain deciding whether `user` may manage
`targetUser`. -/
def canManageUsers (user targetUser : IUser) : Bool :=
  if user.role == Role.SUPER_ADMIN then
    true
  else if user.role == Role.GLOBAL_CONTENT_CREATOR then
    [Role.GLOBAL_CONTENT_CREATOR, Role.ADMIN, Role.TEACHER, Role.STUDENT].contains targetUser.role
  else if user.role == Role.ADMIN && user.institutionId == targetUser.institutionId then
    [Role.ADMIN, Role.TEACHER, Role.STUDENT].contains targetUser.role
  else if user.role == Role.TEACHER && user.institutionId == targetUser.institutionId then
    targetUser.role == Role.STUDENT
  else
    false

/-- C1: `canAccessInstitution(principal, institutionId)` returns true if the
role of the principal is SUPER_ADMIN or GLOBAL_CONTENT_CREATOR, and otherwise
returns true if and only if `principal.institutionId` equals the given
`institutionId`. -/
theorem canAccessInstitution_spec (user : IUser) (institutionId : String) :
    (user.role = Role.SUPER_ADMIN ∨ user.role = Role.GLOBAL_CONTENT_CREATOR →
      canAccessInstitution user institutionId = true) ∧
    (¬(user.role = Role.SUPER_ADMIN ∨ user.role = Role.GLOBAL_CONTENT_CREATOR) →
      (canAccessInstitution user institutionId = true ↔
        user.institutionId = some institutionId)) := by
  cases user with
  | mk id role institutionId0 =>
    cases role <;> simp [canAccessInstitution]

/-- Witness for C1: a concrete TEACHER of institution "i1" can access "i1". -/
theorem canAccessInstitution_spec_witness :
    canAccessInstitution ⟨"u1", Role.TEACHER, some "i1"⟩ "i1" = true :=
  (canAccessInstitution_spec ⟨"u1", Role.TEACHER, some "i1"⟩ "i1").2
    (by simp) |>.mpr rfl

/-- C8: `canManageUsers` branch rules, evaluated top-down with the first
matching role branch deciding the outcome: SUPER_ADMIN manages everyone,
GLOBAL_CONTENT_CREATOR everyone except SUPER_ADMIN, ADMIN exactly the
same-institution ADMIN/TEACHER/STUDENT (never SUPER_ADMIN or
GLOBAL_CONTENT_CREATOR), TEACHER exactly the same-institution STUDENTs,
and STUDENT nobody; hence a target strictly more privileged than the
principal is never manageable. -/
theorem canManageUsers_branch_spec (user targetUser : IUser) :
    (user.role = Role.SUPER_ADMIN → canManageUsers user targetUser = true) ∧
    (user.role = Role.GLOBAL_CONTENT_CREATOR →
      (canManageUsers user targetUser = true ↔ targetUser.role ≠ Role.SUPER_ADMIN)) ∧
    (user.role = Role.ADMIN →
      (canManageUsers user targetUser = true ↔
        user.institutionId = targetUser.institutionId ∧
          (targetUser.role = Role.ADMIN ∨ targetUser.role = Role.TEACHER ∨
            targetUser.role = Role.STUDENT))) ∧
    (user.role = Role.TEACHER →
      (canManageUsers user targetUser = true ↔
        user.institutionId = targetUser.institutionId ∧ targetUser.role = Role.STUDENT)) ∧
    (user.role = Role.STUDENT → canManageUsers user targetUser = false) := by
  cases user with
  | mk uid urole uinst =>
    cases targetUser with
    | mk tid trole tinst =>
      cases urole <;> cases trole <;>
        by_cases hinst : uinst = tinst <;>
          simp [canManageUsers, hinst]

/-- Witness for C8: a concrete TEACHER of institution "i1" can manage a
STUDENT of "i1". -/
theorem canManageUsers_branch_spec_witness :
    canManageUsers ⟨"t1", Role.TEACHER, some "i1"⟩ ⟨"s1", Role.STUDENT, some "i1"⟩ = true :=
  ((canManageUsers_branch_spec ⟨"t1", Role.TEACHER, some "i1"⟩
      ⟨"s1", Role.STUDENT, some "i1"⟩).2.2.2.1 rfl).mpr ⟨rfl, rfl⟩

/-- Prisma model `Question`, with the fields read by QuizService. The
`quizId` foreign key is represented by nesting each question inside its
quiz, matching how every QuizService operation loads questions (always via
`include: { questions: true }` on the owning quiz). Timestamps are integer
epoch milliseconds (`Date.getTime()`). -/
structure Question where
  id : String
  text : String
  options : List String
  difficulty : String
  points : Int
  answer : String
deriving DecidableEq, Repr

/-- Prisma model `Quiz` with its question set, fields as read by
QuizService.startQuizAttempt and submitQuizAttempt. -/
structure Quiz where
  id : String
  title : String
  description : Option String
  durationMins : Int
  startTime : Int
  endTime : Int
  questions : List Question
deriving DecidableEq, Repr

/-- Prisma model `QuizAttempt`. The JSON `answers` object is an
association list from question id to the recorded student answer; a JS
`undefined` value (question unanswered) is `none`. -/
structure QuizAttempt where
  id : String
  quizId : String
  studentId : String
  answers : List (String × Option String)
  score : Int
  maxScore : Int
  completed : Bool
  startedAt : Int
  submittedAt : Option Int
  timeSpent : Option Int
deriving DecidableEq, Repr

/-- The Prisma database state visible to the quiz-attempt lifecycle:
the quiz table (with nested questions) and the quiz-attempt table. -/
structure StoreState where
  quizzes : List Quiz
  attempts : List QuizAttempt
deriving DecidableEq, Repr

/-- CustomError (src/middleware/errorHandler.ts): an Error carrying a
message and an HTTP status code. -/
structure CustomError where
  message : String
  statusCode : Nat
deriving DecidableEq, Repr

/-- The caller-supplied `answers` request body: a JS object mapping
question ids to answer strings. -/
abbrev AnswerMap := List (String × String)

/-- JS property lookup `answers[questionId]`: `none` models `undefined`
(key absent). -/
def lookupAnswer (answers : AnswerMap) (questionId : String) : Option String :=
  (answers.find? (fun p => p.fst == questionId)).map Prod.snd

/-- A JS number that may be NaN or an infinity (these arise only from the
unguarded percentage division); finite values are exact rationals. -/
inductive JsNumber where
  | nan
  | posInf
  | negInf
  | num (q : ℚ)
deriving DecidableEq, Repr

/-- JS division `a / b` on finite operands: division by zero yields NaN
when the dividend is zero, otherwise a signed infinity. -/
def jsDiv (a b : ℚ) : JsNumber :=
  if b = 0 then
    if a = 0 then JsNumber.nan else if a > 0 then JsNumber.posInf else JsNumber.negInf
  else
    JsNumber.num (a / b)

/-- JS multiplication of a number by a finite positive constant (here
always the literal 100): NaN and infinities are absorbing. -/
def jsMulPos (x : JsNumber) (c : ℚ) : JsNumber :=
  match x with
  | JsNumber.num q => JsNumber.num (q * c)
  | y => y

/-- Model of `Math.round` on a finite rational: rounds
half toward positive infinity, i.e. `⌊q + 1/2⌋`. -/
def jsRoundRat (q : ℚ) : ℤ :=
  ⌊q + 1 / 2⌋

/-- Model of `Math.round` lifted to JsNumber: NaN and infinities pass
through. -/
def mathRound : JsNumber → JsNumber
  | JsNumber.num q => JsNumber.num ((jsRoundRat q : ℤ) : ℚ)
  | x => x

/-- Lookup `prisma.quiz.findUnique({ where: { id: quizId } })`. -/
def findQuiz (s : StoreState) (quizId : String) : Option Quiz :=
  s.quizzes.find? (fun q => q.id == quizId)

/-- Lookup `prisma.quizAttempt.findUnique({ where: { id: attemptId } })`. -/
def findAttempt (s : StoreState) (attemptId : String) : Option QuizAttempt :=
  s.attempts.find? (fun a => a.id == attemptId)

/-- The predicate of the `findFirst` filter in startQuizAttempt:
same quiz, same student, `completed: false`. -/
def isActiveFor (quizId studentId : String) (a : QuizAttempt) : Bool :=
  a.quizId == quizId && a.studentId == studentId && a.completed == false

/-- Lookup `prisma.quizAttempt.findFirst({ where: { quizId, studentId,
completed: false } })` (lines 746-752). -/
def findActiveAttempt (s : StoreState) (quizId studentId : String) : Option QuizAttempt :=
  s.attempts.find? (isActiveFor quizId studentId)

/-- Computation `quiz.questions.reduce((sum, q) => sum + q.points, 0)`
(line 759). -/
def quizMaxScore (questions : List Question) : Int :=
  questions.foldl (fun sum q => sum + q.points) 0

/-- The student-facing question view built at line 785-791: exactly the
fields id, text, options, difficulty, points — no `answer`. -/
structure QuestionView where
  id : String
  text : String
  options : List String
  difficulty : String
  points : Int
deriving DecidableEq, Repr

/-- The quiz view returned by startQuizAttempt (lines 778-792). -/
structure QuizView where
  id : String
  title : String
  description : Option String
  durationMins : Int
  startTime : Int
  endTime : Int
  questions : List QuestionView
deriving DecidableEq, Repr

/-- Projection of one question into the student-facing view
(lines 785-791). -/
def sanitizeQuestion (q : Question) : QuestionView :=
  { id := q.id
    text := q.text
    options := q.options
    difficulty := q.difficulty
    points := q.points }

/-- The full return value of a successful startQuizAttempt
(lines 776-793). -/
structure StartResult where
  attemptId : String
  quiz : QuizView
deriving DecidableEq, Repr

/-- The quiz view of lines 778-792. -/
def quizView (quiz : Quiz) : QuizView :=
  { id := quiz.id
    title := quiz.title
    description := quiz.description
    durationMins := quiz.durationMins
    startTime := quiz.startTime
    endTime := quiz.endTime
    questions := quiz.questions.map sanitizeQuestion }

/-- Phase 1 of QuizService.startQuizAttempt (lines 729-756): the reads and
checks preceding the `create` — load the quiz (404 if absent), check the
time window (400 if outside), run the `findFirst` for an active attempt
(400 if one exists). Returns the loaded quiz. This phase performs no
write; the `create` is a separate store operation (phase 2), which is what
makes the check-then-insert non-atomic. -/
def startCheck (s : StoreState) (quizId studentId : String) (now : Int) :
    Except CustomError Quiz :=
  match findQuiz s quizId with
  | none => Except.error { message := "Quiz not found", statusCode := 404 }
  | some quiz =>
    if now < quiz.startTime || now > quiz.endTime then
      Except.error { message := "Quiz is not currently active", statusCode := 400 }
    else if (findActiveAttempt s quizId studentId).isSome then
      Except.error
        { message := "You already have an active attempt for this quiz", statusCode := 400 }
    else
      Except.ok quiz

/-- Phase 2 of QuizService.startQuizAttempt (lines 758-793): compute
maxScore over the loaded snapshot, `prisma.quizAttempt.create` the new
attempt, and build the sanitized return value. `newId` is the id the
store assigns to the created row. -/
def startInsert (s : StoreState) (quiz : Quiz) (quizId studentId newId : String)
    (now : Int) : StartResult × StoreState :=
  let maxScore := quizMaxScore quiz.questions
  let attempt : QuizAttempt :=
    { id := newId
      quizId := quizId
      studentId := studentId
      answers := []
      score := 0
      maxScore := maxScore
      completed := false
      startedAt := now
      submittedAt := none
      timeSpent := none }
  ({ attemptId := newId, quiz := quizView quiz },
   { s with attempts := s.attempts ++ [attempt] })

/-- QuizService.startQuizAttempt (lines 723-798): phase 1 (checks)
followed by phase 2 (insert). `now` is the value of `new Date()` and
`newId` the id assigned by the store to the created attempt. -/
def startQuizAttempt (s : StoreState) (quizId studentId : String) (now : Int)
    (newId : String) : Except CustomError (StartResult × StoreState) :=
  match startCheck s quizId studentId now with
  | Except.error e => Except.error e
  | Except.ok quiz => Except.ok (startInsert s quiz quizId studentId newId now)

/-- The scoring loop of submitQuizAttempt (lines 834-844): fold over the
questions of the quiz accumulating `score` and the recorded `questionAnswers`
object (kept as a list in loop order; question ids are unique in the
store). An absent caller answer is recorded as `none` and never equals
the non-null `question.answer`. -/
def scoreQuestions (questions : List Question) (answers : AnswerMap) :
    Int × List (String × Option String) :=
  questions.foldl
    (fun acc question =>
      let studentAnswer := lookupAnswer answers question.id
      (if studentAnswer == some question.answer then acc.1 + question.points else acc.1,
       acc.2 ++ [(question.id, studentAnswer)]))
    (0, [])

/-- The return value of a successful submitQuizAttempt (lines 863-870). -/
structure SubmitResult where
  attemptId : String
  score : Int
  maxScore : Int
  percentage : JsNumber
  timeSpent : Int
  completed : Bool
deriving DecidableEq, Repr

/-- Expression `Math.round((score / maxScore) * 100)` (line 867). -/
def percentageOf (score maxScore : Int) : JsNumber :=
  mathRound (jsMulPos (jsDiv (score : ℚ) (maxScore : ℚ)) 100)

/-- QuizService.submitQuizAttempt (lines 803-875): load the attempt with
its quiz and questions (404 if absent; the quiz lookup models the
`include` join, whose failure cannot occur because the store enforces the
`quizId` foreign key), check ownership (403), check not yet completed
(400), score against the current question set of the quiz, compute
`timeSpent = Math.floor((now − startedAt) / 60000)`, persist the update,
and return the summary. `now` models both `Date.now()` and
`new Date()`. -/
def submitQuizAttempt (s : StoreState) (attemptId : String) (answers : AnswerMap)
    (studentId : String) (now : Int) :
    Except CustomError (SubmitResult × StoreState) :=
  match findAttempt s attemptId with
  | none => Except.error { message := "Quiz attempt not found", statusCode := 404 }
  | some attempt =>
    match findQuiz s attempt.quizId with
    | none => Except.error { message := "Quiz attempt not found", statusCode := 404 }
    | some quiz =>
      if attempt.studentId != studentId then
        Except.error { message := "Unauthorized access to quiz attempt", statusCode := 403 }
      else if attempt.completed then
        Except.error { message := "Quiz attempt already completed", statusCode := 400 }
      else
        let scored := scoreQuestions quiz.questions answers
        let timeSpent := Int.fdiv (now - attempt.startedAt) 60000
        let updated : QuizAttempt :=
          { attempt with
            answers := scored.2
            score := scored.1
            completed := true
            submittedAt := some now
            timeSpent := some timeSpent }
        Except.ok
          ({ attemptId := attempt.id
             score := scored.1
             maxScore := attempt.maxScore
             percentage := percentageOf scored.1 attempt.maxScore
             timeSpent := timeSpent
             completed := true },
           { s with attempts := s.attempts.map (fun a => if a.id == attemptId then updated else a) })

/-- The Joi `questionCreate` schema (src/utils/validation.ts lines
198-247): text 5-1000 chars, 2-6 options of 1-200 chars, non-empty
answer, difficulty in easy/medium/hard, integer points in 1-10. -/
def validQuestionCreate (q : Question) : Bool :=
  5 ≤ q.text.length && q.text.length ≤ 1000 &&
  2 ≤ q.options.length && q.options.length ≤ 6 &&
  q.options.all (fun o => 1 ≤ o.length && o.length ≤ 200) &&
  (q.difficulty == "easy" || q.difficulty == "medium" || q.difficulty == "hard") &&
  1 ≤ q.points && q.points ≤ 10 &&
  q.answer != ""

/-- QuizService.addQuestion (lines 692-718): validate the payload, check
the quiz exists (404 if not), and create the question row (which the
`questions` relation of the quiz then includes). Validation failure is a 400
`CustomError` thrown by validateSchema. -/
def addQuestion (s : StoreState) (quizId : String) (question : Question) :
    Except CustomError StoreState :=
  if !validQuestionCreate question then
    Except.error { message := "Validation failed", statusCode := 400 }
  else
    match findQuiz s quizId with
    | none => Except.error { message := "Quiz not found", statusCode := 404 }
    | some _ =>
      Except.ok
        { s with quizzes :=
            s.quizzes.map (fun q =>
              if q.id == quizId then { q with questions := q.questions ++ [question] } else q) }

/-- Number of in-progress attempts a store holds for one
`(quizId, studentId)` pair. -/
def activeCount (s : StoreState) (quizId studentId : String) : Nat :=
  s.attempts.countP (isActiveFor quizId studentId)

/-- The §3 invariant: at most one in-progress attempt per
`(quizId, studentId)` pair. -/
def atMostOneActive (s : StoreState) : Prop :=
  ∀ quizId studentId, activeCount s quizId studentId ≤ 1

/-- Sum of the points of a list of questions. -/
def sumPoints (qs : List Question) : Int :=
  (qs.map (fun q => q.points)).sum

/-- The questions of `qs` whose looked-up caller answer equals their
stored answer, summed by points: the value the scoring loop accumulates. -/
def matchedPoints (qs : List Question) (ans : AnswerMap) : Int :=
  sumPoints (qs.filter (fun q => lookupAnswer ans q.id == some q.answer))

/-- The `questionAnswers` object built by the scoring loop: every quiz
question id mapped to the verbatim caller answer (possibly `none`). -/
def recordedAnswers (qs : List Question) (ans : AnswerMap) :
    List (String × Option String) :=
  qs.map (fun q => (q.id, lookupAnswer ans q.id))

theorem quizMaxScore_go (qs : List Question) (a : Int) :
    qs.foldl (fun sum q => sum + q.points) a = a + sumPoints qs := by
  induction qs generalizing a with
  | nil => simp [sumPoints]
  | cons q rest ih =>
    simp only [List.foldl_cons, ih, sumPoints, List.map_cons, List.sum_cons]
    ring

theorem quizMaxScore_eq_sumPoints (qs : List Question) :
    quizMaxScore qs = sumPoints qs := by
  simp [quizMaxScore, quizMaxScore_go]

theorem matchedPoints_cons (q : Question) (rest : List Question) (ans : AnswerMap) :
    matchedPoints (q :: rest) ans =
      (if lookupAnswer ans q.id == some q.answer then q.points else 0) +
        matchedPoints rest ans := by
  by_cases hm : (lookupAnswer ans q.id == some q.answer) = true <;>
    simp [matchedPoints, sumPoints, List.filter_cons, hm]

theorem recordedAnswers_cons (q : Question) (rest : List Question) (ans : AnswerMap) :
    recordedAnswers (q :: rest) ans =
      (q.id, lookupAnswer ans q.id) :: recordedAnswers rest ans := rfl

theorem scoreQuestions_go (qs : List Question) (ans : AnswerMap) (a : Int)
    (l : List (String × Option String)) :
    qs.foldl
      (fun acc question =>
        let studentAnswer := lookupAnswer ans question.id
        (if studentAnswer == some question.answer then acc.1 + question.points else acc.1,
         acc.2 ++ [(question.id, studentAnswer)]))
      (a, l) =
    (a + matchedPoints qs ans, l ++ recordedAnswers qs ans) := by
  induction qs generalizing a l with
  | nil => simp [matchedPoints, sumPoints, recordedAnswers]
  | cons q rest ih =>
    simp only [List.foldl_cons, ih, matchedPoints_cons, recordedAnswers_cons]
    by_cases hm : (lookupAnswer ans q.id == some q.answer) = true <;>
      simp [hm, List.append_assoc, Prod.ext_iff] <;>
      omega

theorem scoreQuestions_spec (qs : List Question) (ans : AnswerMap) :
    scoreQuestions qs ans = (matchedPoints qs ans, recordedAnswers qs ans) := by
  simpa [scoreQuestions] using scoreQuestions_go qs ans 0 []

/-- The attempt row as it stands after a successful submit. -/
def submittedAttempt (attempt : QuizAttempt) (quiz : Quiz) (ans : AnswerMap)
    (now : Int) : QuizAttempt :=
  { attempt with
    answers := recordedAnswers quiz.questions ans
    score := matchedPoints quiz.questions ans
    completed := true
    submittedAt := some now
    timeSpent := some (Int.fdiv (now - attempt.startedAt) 60000) }

theorem submitQuizAttempt_ok_spec {s : StoreState} {attempt : QuizAttempt}
    {quiz : Quiz} (aid : String) (ans : AnswerMap) (sid : String) (now : Int)
    (ha : findAttempt s aid = some attempt)
    (hq : findQuiz s attempt.quizId = some quiz)
    (hsid : attempt.studentId = sid)
    (hc : attempt.completed = false) :
    submitQuizAttempt s aid ans sid now =
      Except.ok
        ({ attemptId := attempt.id
           score := matchedPoints quiz.questions ans
           maxScore := attempt.maxScore
           percentage := percentageOf (matchedPoints quiz.questions ans) attempt.maxScore
           timeSpent := Int.fdiv (now - attempt.startedAt) 60000
           completed := true },
         { s with attempts := s.attempts.map (fun a =>
             if a.id == aid then submittedAttempt attempt quiz ans now else a) }) := by
  simp only [submitQuizAttempt, ha, hq]
  simp [← hsid, hc, scoreQuestions_spec, submittedAttempt]

theorem submitQuizAttempt_ok_inv {s : StoreState} {aid : String} {ans : AnswerMap}
    {sid : String} {now : Int} {r : SubmitResult} {s2 : StoreState}
    (h : submitQuizAttempt s aid ans sid now = Except.ok (r, s2)) :
    ∃ attempt quiz, findAttempt s aid = some attempt ∧
      findQuiz s attempt.quizId = some quiz ∧
      attempt.studentId = sid ∧ attempt.completed = false ∧
      r = { attemptId := attempt.id
            score := matchedPoints quiz.questions ans
            maxScore := attempt.maxScore
            percentage := percentageOf (matchedPoints quiz.questions ans) attempt.maxScore
            timeSpent := Int.fdiv (now - attempt.startedAt) 60000
            completed := true } ∧
      s2 = { s with attempts := s.attempts.map (fun a =>
              if a.id == aid then submittedAttempt attempt quiz ans now else a) } := by
  unfold submitQuizAttempt at h
  cases hfa : findAttempt s aid with
  | none => simp [hfa] at h
  | some attempt =>
    simp only [hfa] at h
    cases hfq : findQuiz s attempt.quizId with
    | none => simp [hfq] at h
    | some quiz =>
      simp only [hfq] at h
      by_cases hsid : attempt.studentId = sid
      · by_cases hc : attempt.completed = true
        · simp [hsid, hc] at h
        · simp only [hsid, bne_self_eq_false, Bool.false_eq_true, if_false, hc,
            scoreQuestions_spec, Except.ok.injEq, Prod.mk.injEq] at h
          refine ⟨attempt, quiz, rfl, hfq, hsid, by simpa using hc, ?_, ?_⟩
          · exact h.1.symm
          · rw [← h.2]
            simp [submittedAttempt, hsid]
      · simp [bne_iff_ne, hsid] at h

theorem startCheck_ok_inv {s : StoreState} {quizId studentId : String}
    {now : Int} {quiz : Quiz}
    (h : startCheck s quizId studentId now = Except.ok quiz) :
    findQuiz s quizId = some quiz ∧
      quiz.startTime ≤ now ∧ now ≤ quiz.endTime ∧
      findActiveAttempt s quizId studentId = none := by
  unfold startCheck at h
  cases hfq : findQuiz s quizId with
  | none => simp [hfq] at h
  | some q =>
    simp only [hfq] at h
    split at h
    · simp at h
    · split at h
      · simp at h
      · rename_i htime hact
        simp only [Except.ok.injEq] at h
        subst h
        simp only [Bool.or_eq_true, not_or, decide_eq_true_eq, not_lt] at htime
        refine ⟨rfl, htime.1, ?_, ?_⟩
        · simpa using htime.2
        · cases hfa : findActiveAttempt s quizId studentId with
          | none => rfl
          | some a => simp [hfa] at hact

theorem startQuizAttempt_ok_inv {s : StoreState} {quizId studentId : String}
    {now : Int} {newId : String} {r : StartResult} {s2 : StoreState}
    (h : startQuizAttempt s quizId studentId now newId = Except.ok (r, s2)) :
    ∃ quiz, findQuiz s quizId = some quiz ∧
      quiz.startTime ≤ now ∧ now ≤ quiz.endTime ∧
      findActiveAttempt s quizId studentId = none ∧
      (r, s2) = startInsert s quiz quizId studentId newId now := by
  unfold startQuizAttempt at h
  cases hck : startCheck s quizId studentId now with
  | error e => simp [hck] at h
  | ok quiz =>
    simp only [hck, Except.ok.injEq] at h
    obtain ⟨h1, h2, h3, h4⟩ := startCheck_ok_inv hck
    exact ⟨quiz, h1, h2, h3, h4, h.symm⟩

theorem startQuizAttempt_ok_spec {s : StoreState} {quiz : Quiz}
    (quizId studentId : String) (now : Int) (newId : String)
    (hq : findQuiz s quizId = some quiz)
    (h1 : quiz.startTime ≤ now) (h2 : now ≤ quiz.endTime)
    (hact : findActiveAttempt s quizId studentId = none) :
    startQuizAttempt s quizId studentId now newId =
      Except.ok (startInsert s quiz quizId studentId newId now) := by
  simp only [startQuizAttempt, startCheck, hq]
  rw [if_neg (by simp; omega), if_neg (by simp [hact])]

theorem startQuizAttempt_time_error {s : StoreState} {quiz : Quiz}
    (quizId studentId : String) (now : Int) (newId : String)
    (hq : findQuiz s quizId = some quiz)
    (ht : now < quiz.startTime ∨ now > quiz.endTime) :
    startQuizAttempt s quizId studentId now newId =
      Except.error { message := "Quiz is not currently active", statusCode := 400 } := by
  simp only [startQuizAttempt, startCheck, hq]
  rw [if_pos (by rcases ht with h | h <;> simp [h])]

theorem startQuizAttempt_conflict_error {s : StoreState} {quiz : Quiz} {a : QuizAttempt}
    (quizId studentId : String) (now : Int) (newId : String)
    (hq : findQuiz s quizId = some quiz)
    (h1 : quiz.startTime ≤ now) (h2 : now ≤ quiz.endTime)
    (hact : findActiveAttempt s quizId studentId = some a) :
    startQuizAttempt s quizId studentId now newId =
      Except.error
        { message := "You already have an active attempt for this quiz", statusCode := 400 } := by
  simp only [startQuizAttempt, startCheck, hq]
  rw [if_neg (by simp; omega), if_pos (by simp [hact])]

theorem addQuestion_ok_inv {s : StoreState} {quizId : String} {question : Question}
    {s2 : StoreState} (h : addQuestion s quizId question = Except.ok s2) :
    s2.attempts = s.attempts := by
  unfold addQuestion at h
  split at h
  · simp at h
  · cases hfq : findQuiz s quizId with
    | none => simp [hfq] at h
    | some q =>
      simp only [hfq, Except.ok.injEq] at h
      rw [← h]

/-- C2: at most one in-progress attempt exists per `(quizId, studentId)`
pair, and the quiz-attempt operations preserve this: when the quiz exists
and is in its window, Start on a pair that already has an active attempt
fails with the conflict error (the Conflict of the spec); a successful Start
implies no active attempt existed and the result store still satisfies
the invariant; a successful Submit preserves the invariant (it only sets
`completed` to true); and addQuestion — the only other modelled mutation
of quiz data — leaves the attempt table untouched. -/
theorem attempt_ops_preserve_at_most_one_active (s : StoreState)
    (hinv : atMostOneActive s) :
    (∀ quizId studentId now newId (quiz : Quiz) (a : QuizAttempt),
        findQuiz s quizId = some quiz → quiz.startTime ≤ now → now ≤ quiz.endTime →
        findActiveAttempt s quizId studentId = some a →
        startQuizAttempt s quizId studentId now newId =
          Except.error
            { message := "You already have an active attempt for this quiz",
              statusCode := 400 }) ∧
    (∀ quizId studentId now newId r s2,
        startQuizAttempt s quizId studentId now newId = Except.ok (r, s2) →
        findActiveAttempt s quizId studentId = none ∧ atMostOneActive s2) ∧
    (∀ aid ans sid now r s2,
        submitQuizAttempt s aid ans sid now = Except.ok (r, s2) → atMostOneActive s2) ∧
    (∀ quizId question s2,
        addQuestion s quizId question = Except.ok s2 → s2.attempts = s.attempts) := by
  refine ⟨?_, ?_, ?_, ?_⟩
  · intro quizId studentId now newId quiz a hq h1 h2 hact
    exact startQuizAttempt_conflict_error quizId studentId now newId hq h1 h2 hact
  · intro quizId studentId now newId r s2 h
    obtain ⟨quiz, hq, h1, h2, hact, heq⟩ := startQuizAttempt_ok_inv h
    refine ⟨hact, ?_⟩
    have hs2 : s2.attempts = s.attempts ++
        [{ id := newId, quizId := quizId, studentId := studentId, answers := [],
           score := 0, maxScore := quizMaxScore quiz.questions, completed := false,
           startedAt := now, submittedAt := none, timeSpent := none }] := by
      have := congrArg (fun p => p.2.attempts) heq
      simpa [startInsert] using this
    intro q st
    have hzero : ∀ x ∈ s.attempts, ¬ isActiveFor quizId studentId x :=
      List.find?_eq_none.mp hact
    by_cases hpair : q = quizId ∧ st = studentId
    · obtain ⟨hq1, hst1⟩ := hpair
      subst hq1; subst hst1
      have : (s.attempts).countP (isActiveFor q st) = 0 :=
        List.countP_eq_zero.mpr hzero
      simp [activeCount, hs2, List.countP_append, this, List.countP_cons, isActiveFor]
    · have hnot : ¬ isActiveFor q st
          { id := newId, quizId := quizId, studentId := studentId, answers := [],
            score := 0, maxScore := quizMaxScore quiz.questions, completed := false,
            startedAt := now, submittedAt := none, timeSpent := none } := by
        simp only [isActiveFor, Bool.and_eq_true, beq_iff_eq]
        intro hcontra
        exact hpair ⟨hcontra.1.1.symm, hcontra.1.2.symm⟩
      have := hinv q st
      simpa [activeCount, hs2, List.countP_append, List.countP_cons, hnot] using this
  · intro aid ans sid now r s2 h
    obtain ⟨attempt, quiz, ha, hq, hsid, hc, hr, hs2⟩ := submitQuizAttempt_ok_inv h
    intro q st
    have hmap : s2.attempts = s.attempts.map (fun a =>
        if a.id == aid then submittedAttempt attempt quiz ans now else a) := by
      rw [hs2]
    have hle : (s2.attempts).countP (isActiveFor q st) ≤
        (s.attempts).countP (isActiveFor q st) := by
      rw [hmap, List.countP_map]
      refine List.countP_mono_left ?_
      intro x hx hpx
      simp only [Function.comp] at hpx
      by_cases hid : (x.id == aid) = true
      · rw [if_pos hid] at hpx
        simp [isActiveFor, submittedAttempt] at hpx
      · rw [if_neg hid] at hpx
        exact hpx
    exact le_trans hle (hinv q st)
  · intro quizId question s2 h
    exact addQuestion_ok_inv h

/-- Store used for the C2 witness: quiz "Q" (window 0..100) with one
in-progress attempt "A1" by student "S". -/
def c2Store : StoreState :=
  { quizzes := [{ id := "Q", title := "t", description := none, durationMins := 30,
                  startTime := 0, endTime := 100,
                  questions := [{ id := "q1", text := "aaaaa", options := ["a", "b"],
                                  difficulty := "easy", points := 1, answer := "a" }] }]
    attempts := [{ id := "A1", quizId := "Q", studentId := "S", answers := [],
                   score := 0, maxScore := 1, completed := false, startedAt := 1,
                   submittedAt := none, timeSpent := none }] }

theorem c2Store_at_most_one_active : atMostOneActive c2Store := by
  intro q st
  exact le_trans (List.countP_le_length _) (by simp [c2Store])

/-- Witness for C2: in `c2Store` (which satisfies the invariant) a second
Start by the same student on the same quiz fails with the conflict
error. -/
theorem attempt_ops_preserve_at_most_one_active_witness :
    atMostOneActive c2Store ∧
    startQuizAttempt c2Store "Q" "S" 1 "A2" =
      Except.error
        { message := "You already have an active attempt for this quiz",
          statusCode := 400 } :=
  ⟨c2Store_at_most_one_active,
   (attempt_ops_preserve_at_most_one_active c2Store c2Store_at_most_one_active).1
     "Q" "S" 1 "A2" (c2Store.quizzes.get ⟨0, by simp [c2Store]⟩)
     (c2Store.attempts.get ⟨0, by simp [c2Store]⟩)
     rfl (by simp [c2Store]) (by simp [c2Store]) rfl⟩

theorem submit_twice_not_ok {s : StoreState} {aid : String} {ans : AnswerMap}
    {sid : String} {now : Int} {r : SubmitResult} {s2 : StoreState}
    (h : submitQuizAttempt s aid ans sid now = Except.ok (r, s2)) :
    ∀ ans2 sid2 now2 r2 s3,
      submitQuizAttempt s2 aid ans2 sid2 now2 ≠ Except.ok (r2, s3) := by
  intro ans2 sid2 now2 r2 s3 h2
  obtain ⟨attempt, quiz, ha, hq, hsid, hc, hr, hs2⟩ := submitQuizAttempt_ok_inv h
  obtain ⟨attempt2, quiz2, ha2, _, _, hc2, _, _⟩ := submitQuizAttempt_ok_inv h2
  have ha2x : List.find? (fun a => a.id == aid) s2.attempts = some attempt2 := ha2
  have hmem : attempt2 ∈ s2.attempts := List.mem_of_find?_eq_some ha2x
  have hid2 : (attempt2.id == aid) = true := by
    simpa using List.find?_some ha2x
  rw [hs2] at hmem
  simp only [List.mem_map] at hmem
  obtain ⟨a, _, hfa⟩ := hmem
  by_cases hid : (a.id == aid) = true
  · rw [if_pos hid] at hfa
    rw [← hfa] at hc2
    simp [submittedAttempt] at hc2
  · rw [if_neg hid] at hfa
    rw [← hfa] at hid2
    exact hid hid2

/-- C3: Submit on an already-completed attempt always fails — with the
already-completed conflict error when the caller owns the attempt (an
ownership mismatch is rejected even earlier, with a 403) — and never
returns a success, so the stored attempt, in particular its `score`, is
never mutated (in this embedding every error path returns no store
update, exactly as the code throws before its single
`prisma.quizAttempt.update`); conversely a successful Submit requires
`completed = false` beforehand, marks the result completed, and no
further Submit on that attempt can ever succeed again — `completed` goes
false→true and `score` is written exactly once. -/
theorem submit_already_completed_conflict (s : StoreState) (aid : String)
    (attempt : QuizAttempt) (quiz : Quiz)
    (ha : findAttempt s aid = some attempt)
    (hq : findQuiz s attempt.quizId = some quiz) :
    (attempt.completed = true →
      (∀ ans now, submitQuizAttempt s aid ans attempt.studentId now =
          Except.error { message := "Quiz attempt already completed", statusCode := 400 }) ∧
      (∀ ans sid now r s2, submitQuizAttempt s aid ans sid now ≠ Except.ok (r, s2))) ∧
    (∀ ans sid now r s2, submitQuizAttempt s aid ans sid now = Except.ok (r, s2) →
      attempt.completed = false ∧ r.completed = true ∧
      (∀ ans2 sid2 now2 r2 s3,
        submitQuizAttempt s2 aid ans2 sid2 now2 ≠ Except.ok (r2, s3))) := by
  constructor
  · intro hc
    constructor
    · intro ans now
      simp only [submitQuizAttempt, ha, hq]
      simp [hc]
    · intro ans sid now r s2 h
      obtain ⟨attempt2, quiz2, ha2, _, _, hc2, _, _⟩ := submitQuizAttempt_ok_inv h
      rw [ha] at ha2
      cases ha2
      simp [hc] at hc2
  · intro ans sid now r s2 h
    obtain ⟨attempt2, quiz2, ha2, hq2, hsid2, hc2, hr, hs2⟩ := submitQuizAttempt_ok_inv h
    rw [ha] at ha2
    cases ha2
    exact ⟨hc2, by rw [hr], submit_twice_not_ok h⟩

/-- Store used for the C3 witness: attempt "A1" on quiz "Q" is already
completed. -/
def c3Store : StoreState :=
  { quizzes := [{ id := "Q", title := "t", description := none, durationMins := 30,
                  startTime := 0, endTime := 100,
                  questions := [{ id := "q1", text := "aaaaa", options := ["a", "b"],
                                  difficulty := "easy", points := 1, answer := "a" }] }]
    attempts := [{ id := "A1", quizId := "Q", studentId := "S",
                   answers := [("q1", some "a")], score := 1, maxScore := 1,
                   completed := true, startedAt := 1, submittedAt := some 2,
                   timeSpent := some 0 }] }

/-- Witness for C3: submitting the completed attempt "A1" again fails with
the already-completed error. -/
theorem submit_already_completed_conflict_witness :
    submitQuizAttempt c3Store "A1" [("q1", "a")] "S" 3 =
      Except.error { message := "Quiz attempt already completed", statusCode := 400 } :=
  ((submit_already_completed_conflict c3Store "A1"
      (c3Store.attempts.get ⟨0, by simp [c3Store]⟩)
      (c3Store.quizzes.get ⟨0, by simp [c3Store]⟩)
      rfl rfl).1 rfl).1 [("q1", "a")] 3

theorem matchedPoints_congr (qs : List Question) (ans1 ans2 : AnswerMap)
    (h : ∀ q ∈ qs, lookupAnswer ans1 q.id = lookupAnswer ans2 q.id) :
    matchedPoints qs ans1 = matchedPoints qs ans2 := by
  induction qs with
  | nil => rfl
  | cons q rest ih =>
    rw [matchedPoints_cons, matchedPoints_cons, h q (by simp),
      ih (fun x hx => h x (by simp [hx]))]

/-- Quiz for the C4 witness and the concrete example of the claim: questions
q1 (1 point, answer "4") and q2 (2 points, answer "5"). -/
def c4Quiz : Quiz :=
  { id := "Q", title := "t", description := none, durationMins := 30,
    startTime := 0, endTime := 100,
    questions := [{ id := "q1", text := "aaaaa", options := ["4", "5"],
                    difficulty := "easy", points := 1, answer := "4" },
                  { id := "q2", text := "bbbbb", options := ["5", "6"],
                    difficulty := "easy", points := 2, answer := "5" }] }

/-- In-progress attempt "A" (maxScore 3) by student "S" on `c4Quiz`. -/
def c4Attempt : QuizAttempt :=
  { id := "A", quizId := "Q", studentId := "S", answers := [], score := 0,
    maxScore := 3, completed := false, startedAt := 1, submittedAt := none,
    timeSpent := none }

/-- Store for the C4 witness and the concrete example of the claim. -/
def c4Store : StoreState :=
  { quizzes := [c4Quiz], attempts := [c4Attempt] }

theorem c4_percentage_value : percentageOf 1 3 = JsNumber.num 33 := by
  have h3 : ((3 : Int) : ℚ) ≠ 0 := by norm_num
  simp only [percentageOf, jsDiv, jsMulPos, mathRound, jsRoundRat, if_neg h3]
  norm_num

theorem c4_example :
    (submitQuizAttempt c4Store "A" [("q1", "4"), ("q2", "6")] "S" 2).map
        (fun p => (p.1.score, p.1.maxScore, p.1.percentage)) =
      Except.ok (1, 3, JsNumber.num 33) := by
  have h := @submitQuizAttempt_ok_spec c4Store c4Attempt c4Quiz "A"
    [("q1", "4"), ("q2", "6")] "S" 2 rfl rfl rfl rfl
  rw [h]
  have hm : matchedPoints c4Quiz.questions [("q1", "4"), ("q2", "6")] = 1 := by decide
  have hmax : c4Attempt.maxScore = 3 := rfl
  simp [Except.map, hm, hmax, c4_percentage_value, c4Attempt]

/-- C4: a successful Submit records the caller answer of every quiz question
verbatim (absent → `none`) and scores the sum of `points` over exactly
the questions whose looked-up answer equals `question.answer`
(`matchedPoints` is by definition the point sum over the filter of
matching questions, under exact Option/String equality, so an absent
answer never matches); the score depends only on the lookups at the
question ids of the quiz itself, so extra keys for unknown ids are ignored; and
on the concrete example of the claim the result is score 1, maxScore 3,
percentage 33. -/
theorem submit_scoring_spec (s : StoreState) (aid : String) (ans : AnswerMap)
    (sid : String) (now : Int) (attempt : QuizAttempt) (quiz : Quiz)
    (ha : findAttempt s aid = some attempt)
    (hq : findQuiz s attempt.quizId = some quiz)
    (hsid : attempt.studentId = sid)
    (hc : attempt.completed = false) :
    (∃ s2, submitQuizAttempt s aid ans sid now =
        Except.ok
          ({ attemptId := attempt.id
             score := matchedPoints quiz.questions ans
             maxScore := attempt.maxScore
             percentage := percentageOf (matchedPoints quiz.questions ans) attempt.maxScore
             timeSpent := Int.fdiv (now - attempt.startedAt) 60000
             completed := true }, s2) ∧
        s2.attempts = s.attempts.map (fun a =>
          if a.id == aid then submittedAttempt attempt quiz ans now else a)) ∧
    (submittedAttempt attempt quiz ans now).answers = recordedAnswers quiz.questions ans ∧
    (∀ q : Question, lookupAnswer ans q.id = none →
      (lookupAnswer ans q.id == some q.answer) = false) ∧
    (∀ ans2 : AnswerMap,
      (∀ q ∈ quiz.questions, lookupAnswer ans2 q.id = lookupAnswer ans q.id) →
      matchedPoints quiz.questions ans2 = matchedPoints quiz.questions ans) ∧
    ((submitQuizAttempt c4Store "A" [("q1", "4"), ("q2", "6")] "S" 2).map
        (fun p => (p.1.score, p.1.maxScore, p.1.percentage)) =
      Except.ok (1, 3, JsNumber.num 33)) := by
  refine ⟨⟨_, submitQuizAttempt_ok_spec aid ans sid now ha hq hsid hc, rfl⟩,
    rfl, ?_, ?_, c4_example⟩
  · intro q hnone
    simp [hnone]
  · intro ans2 hagree
    exact matchedPoints_congr quiz.questions ans2 ans hagree

/-- Witness for C4: the concrete example of the claim, obtained by applying
the scoring theorem to `c4Store`. -/
theorem submit_scoring_spec_witness :
    (submitQuizAttempt c4Store "A" [("q1", "4"), ("q2", "6")] "S" 2).map
        (fun p => (p.1.score, p.1.maxScore, p.1.percentage)) =
      Except.ok (1, 3, JsNumber.num 33) :=
  (submit_scoring_spec c4Store "A" [("q1", "4"), ("q2", "6")] "S" 2
      (c4Store.attempts.get ⟨0, by simp [c4Store]⟩)
      (c4Store.quizzes.get ⟨0, by simp [c4Store]⟩)
      rfl rfl rfl rfl).2.2.2.2

/-- The quiz used by the C5 counterexample before the question edit: one
2-point question. -/
def c5Quiz : Quiz :=
  { id := "Q", title := "t", description := none, durationMins := 30,
    startTime := 0, endTime := 100,
    questions := [{ id := "q1", text := "aaaaa", options := ["a", "b"],
                    difficulty := "easy", points := 2, answer := "a" }] }

/-- Initial store for the C5 counterexample. -/
def c5Store0 : StoreState := { quizzes := [c5Quiz], attempts := [] }

/-- The 3-point question added after the attempt was started. -/
def c5Q2 : Question :=
  { id := "q2", text := "bbbbb", options := ["a", "b"], difficulty := "easy",
    points := 3, answer := "b" }

/-- The quiz after addQuestion appended `c5Q2`. -/
def c5QuizAfterAdd : Quiz :=
  { c5Quiz with questions := c5Quiz.questions ++ [c5Q2] }

/-- The attempt created by Start in the C5 run: maxScore 2, the snapshot
sum at Start time. -/
def c5Attempt : QuizAttempt :=
  { id := "A", quizId := "Q", studentId := "S", answers := [], score := 0,
    maxScore := 2, completed := false, startedAt := 1, submittedAt := none,
    timeSpent := none }

/-- The store after Start and addQuestion in the C5 run. -/
def c5Store2 : StoreState :=
  { quizzes := [c5QuizAfterAdd], attempts := [c5Attempt] }

/-- Counterexample for C5: start an attempt on a quiz with one 2-point
question (snapshot maxScore 2), add a 3-point question, then submit with
both answers correct. Submit scores over the current question
set of the quiz, not the Start-time snapshot, so the result has score 5 with
maxScore 2 — refuting both "Submit scores only over that same
snapshotted question set" and "score ≤ maxScore always holds". -/
theorem submit_scores_current_set_counterexample :
    (startQuizAttempt c5Store0 "Q" "S" 1 "A").toOption.bind (fun p =>
        (addQuestion p.2 "Q" c5Q2).toOption) = some c5Store2 ∧
    (submitQuizAttempt c5Store2 "A" [("q1", "a"), ("q2", "b")] "S" 2).toOption.map
        (fun p => (p.1.score, p.1.maxScore)) = some (5, 2) ∧
    ¬(5 : Int) ≤ (2 : Int) :=
  ⟨rfl, rfl, by omega⟩

/-- C5 amended: `maxScore` is fixed at Start as the point sum over the
question set loaded then, and later addQuestion calls never touch the
attempt table; but Submit scores over the question set of the quiz as it
exists at submission time (it reloads the quiz), and only `maxScore` is
carried over from the attempt record — so questions added after Start do
enter the Submit scoring and score can exceed maxScore. -/
theorem maxScore_snapshot_score_current (s : StoreState) :
    (∀ quizId studentId now newId (quiz : Quiz) r s2,
        findQuiz s quizId = some quiz →
        startQuizAttempt s quizId studentId now newId = Except.ok (r, s2) →
        s2.attempts = s.attempts ++
          [{ id := newId, quizId := quizId, studentId := studentId, answers := [],
             score := 0, maxScore := quizMaxScore quiz.questions, completed := false,
             startedAt := now, submittedAt := none, timeSpent := none }]) ∧
    (∀ aid ans sid now (attempt : QuizAttempt) (quiz : Quiz) r s2,
        findAttempt s aid = some attempt →
        findQuiz s attempt.quizId = some quiz →
        submitQuizAttempt s aid ans sid now = Except.ok (r, s2) →
        r.score = matchedPoints quiz.questions ans ∧ r.maxScore = attempt.maxScore) ∧
    (∀ quizId question s2, addQuestion s quizId question = Except.ok s2 →
        s2.attempts = s.attempts) := by
  refine ⟨?_, ?_, ?_⟩
  · intro quizId studentId now newId quiz r s2 hq h
    obtain ⟨quiz2, hq2, _, _, _, heq⟩ := startQuizAttempt_ok_inv h
    rw [hq] at hq2
    cases hq2
    have hs2 := congrArg (fun p => p.2.attempts) heq
    simpa [startInsert] using hs2
  · intro aid ans sid now attempt quiz r s2 ha hq h
    obtain ⟨attempt2, quiz2, ha2, hq2, _, _, hr, _⟩ := submitQuizAttempt_ok_inv h
    rw [ha] at ha2
    cases ha2
    rw [hq] at hq2
    cases hq2
    rw [hr]
    exact ⟨rfl, rfl⟩
  · intro quizId question s2 h
    exact addQuestion_ok_inv h

/-- The submit result of the C5 run: score 5 over snapshot maxScore 2. -/
def c5SubmitResult : SubmitResult :=
  { attemptId := "A", score := 5, maxScore := 2, percentage := JsNumber.num 250,
    timeSpent := 0, completed := true }

theorem c5_percentage_value : percentageOf 5 2 = JsNumber.num 250 := by
  have h2 : ((2 : Int) : ℚ) ≠ 0 := by norm_num
  simp only [percentageOf, jsDiv, jsMulPos, mathRound, jsRoundRat, if_neg h2]
  norm_num

/-- The store after the C5 submit. -/
def c5Store3 : StoreState :=
  { quizzes := [c5QuizAfterAdd]
    attempts := [{ id := "A", quizId := "Q", studentId := "S",
                   answers := [("q1", some "a"), ("q2", some "b")], score := 5,
                   maxScore := 2, completed := true, startedAt := 1,
                   submittedAt := some 2, timeSpent := some 0 }] }

/-- Witness for the amended C5: in the post-edit store `c5Store2`, the
score of the submitted result is the matched-point sum over the current
(post-edit) question set while maxScore is the snapshot
value 2 of the attempt. -/
theorem maxScore_snapshot_score_current_witness :
    ∃ r s2, submitQuizAttempt c5Store2 "A" [("q1", "a"), ("q2", "b")] "S" 2 =
        Except.ok (r, s2) ∧
      r.score = matchedPoints c5QuizAfterAdd.questions [("q1", "a"), ("q2", "b")] ∧
      r.maxScore = c5Attempt.maxScore := by
  have hok : submitQuizAttempt c5Store2 "A" [("q1", "a"), ("q2", "b")] "S" 2 =
      Except.ok (c5SubmitResult, c5Store3) := by
    have h := @submitQuizAttempt_ok_spec c5Store2 c5Attempt c5QuizAfterAdd "A"
      [("q1", "a"), ("q2", "b")] "S" 2 rfl rfl rfl rfl
    rw [h]
    have hm : matchedPoints c5QuizAfterAdd.questions [("q1", "a"), ("q2", "b")] = 5 := by
      decide
    rw [hm]
    simp only [c5Attempt]
    rw [c5_percentage_value]
    rfl
  have h := (maxScore_snapshot_score_current c5Store2).2.1 "A"
    [("q1", "a"), ("q2", "b")] "S" 2 c5Attempt c5QuizAfterAdd c5SubmitResult c5Store3
    rfl rfl hok
  exact ⟨c5SubmitResult, c5Store3, hok, h.1, h.2⟩

/-- C6: with the quiz loaded, Start fails with the not-active error
exactly when `now` lies outside the closed interval
`[quiz.startTime, quiz.endTime]` (inside the window Start proceeds to the
active-attempt check and either succeeds or fails with the distinct
conflict error); in particular a future `startTime` or a past `endTime`
each make Start fail with the not-active error. -/
theorem start_time_window_spec (s : StoreState) (quizId studentId : String)
    (now : Int) (newId : String) (quiz : Quiz)
    (hq : findQuiz s quizId = some quiz) :
    (startQuizAttempt s quizId studentId now newId =
        Except.error { message := "Quiz is not currently active", statusCode := 400 } ↔
      ¬(quiz.startTime ≤ now ∧ now ≤ quiz.endTime)) ∧
    (now < quiz.startTime →
      startQuizAttempt s quizId studentId now newId =
        Except.error { message := "Quiz is not currently active", statusCode := 400 }) ∧
    (quiz.endTime < now →
      startQuizAttempt s quizId studentId now newId =
        Except.error { message := "Quiz is not currently active", statusCode := 400 }) := by
  refine ⟨⟨?_, ?_⟩, ?_, ?_⟩
  · intro herr hwin
    cases hfa : findActiveAttempt s quizId studentId with
    | none =>
      rw [startQuizAttempt_ok_spec quizId studentId now newId hq hwin.1 hwin.2 hfa] at herr
      exact absurd herr (by simp)
    | some a =>
      rw [startQuizAttempt_conflict_error quizId studentId now newId hq hwin.1 hwin.2 hfa]
        at herr
      simp at herr
  · intro hnw
    exact startQuizAttempt_time_error quizId studentId now newId hq (by omega)
  · intro hlt
    exact startQuizAttempt_time_error quizId studentId now newId hq (Or.inl hlt)
  · intro hgt
    exact startQuizAttempt_time_error quizId studentId now newId hq (Or.inr hgt)

/-- Quiz whose window `[10, 20]` has not yet opened at the call time 5
used by the C6 witness. -/
def c6Quiz : Quiz :=
  { id := "Q", title := "t", description := none, durationMins := 30,
    startTime := 10, endTime := 20,
    questions := [{ id := "q1", text := "aaaaa", options := ["a", "b"],
                    difficulty := "easy", points := 1, answer := "a" }] }

/-- Store for the C6 witness. -/
def c6Store : StoreState := { quizzes := [c6Quiz], attempts := [] }

/-- Witness for C6: starting before the window opens fails with the
not-active error. -/
theorem start_time_window_spec_witness :
    startQuizAttempt c6Store "Q" "S" 5 "A" =
      Except.error { message := "Quiz is not currently active", statusCode := 400 } :=
  (start_time_window_spec c6Store "Q" "S" 5 "A" c6Quiz rfl).2.1 (by decide)

/-- C7: a successful Start returns the new attempt id plus a quiz view
whose questions are exactly the sanitized projections (the
`QuestionView` record carries exactly id, text, options, difficulty, and
points — it has no `answer` field), and the sanitized projection is
independent of the `answer` value of each question. -/
theorem start_sanitized_view (s : StoreState) (quizId studentId : String)
    (now : Int) (newId : String) (quiz : Quiz) (r : StartResult) (s2 : StoreState)
    (hq : findQuiz s quizId = some quiz)
    (h : startQuizAttempt s quizId studentId now newId = Except.ok (r, s2)) :
    r.attemptId = newId ∧
    r.quiz.questions = quiz.questions.map sanitizeQuestion ∧
    (∀ (q : Question) (a : String),
      sanitizeQuestion { q with answer := a } = sanitizeQuestion q) := by
  obtain ⟨quiz2, hq2, _, _, _, heq⟩ := startQuizAttempt_ok_inv h
  rw [hq] at hq2
  cases hq2
  have hr : r = (startInsert s quiz quizId studentId newId now).1 :=
    congrArg Prod.fst heq
  rw [hr]
  exact ⟨rfl, rfl, fun q a => rfl⟩

/-- Quiz for the C7 witness. -/
def c7Quiz : Quiz :=
  { id := "Q", title := "t", description := none, durationMins := 30,
    startTime := 0, endTime := 100,
    questions := [{ id := "q1", text := "aaaaa", options := ["a", "b"],
                    difficulty := "easy", points := 1, answer := "a" }] }

/-- Store for the C7 witness. -/
def c7Store : StoreState := { quizzes := [c7Quiz], attempts := [] }

/-- Store after the Start performed by the C7 witness. -/
def c7Store2 : StoreState :=
  { quizzes := [c7Quiz]
    attempts := [{ id := "A", quizId := "Q", studentId := "S", answers := [],
                   score := 0, maxScore := 1, completed := false, startedAt := 1,
                   submittedAt := none, timeSpent := none }] }

/-- Witness for C7: the concrete Start on `c7Store` returns the sanitized
view. -/
theorem start_sanitized_view_witness :
    (quizView c7Quiz).questions = c7Quiz.questions.map sanitizeQuestion ∧
    (∀ (q : Question) (a : String),
      sanitizeQuestion { q with answer := a } = sanitizeQuestion q) := by
  have h := start_sanitized_view c7Store "Q" "S" 1 "A" c7Quiz
    { attemptId := "A", quiz := quizView c7Quiz } c7Store2 rfl rfl
  exact ⟨h.2.1, h.2.2⟩

/-- Quiz for the C9 race demonstration: active window, one 1-point
question. -/
def c9Quiz : Quiz :=
  { id := "Q", title := "t", description := none, durationMins := 30,
    startTime := 0, endTime := 100,
    questions := [{ id := "q1", text := "aaaaa", options := ["a", "b"],
                    difficulty := "easy", points := 1, answer := "a" }] }

/-- Initial store for the C9 race: no attempts. -/
def c9Store0 : StoreState := { quizzes := [c9Quiz], attempts := [] }

/-- Store after the `create` of client 1 lands. -/
def c9Store1 : StoreState := (startInsert c9Store0 c9Quiz "Q" "S" "A1" 1).2

/-- Store after the `create` of client 2 also lands. -/
def c9Store2 : StoreState := (startInsert c9Store1 c9Quiz "Q" "S" "A2" 1).2

/-- C9: startQuizAttempt is the sequential composition of a read-only
check phase (`findFirst` for an active attempt) and a separate insert
phase (`prisma.quizAttempt.create`) — two distinct store operations with
no transaction or unique constraint around them. Interleaving two Start
calls for the same `(quizId, studentId)` as check₁, check₂, insert₁,
insert₂ lets both checks pass against the pre-insert store, both inserts
land, and the store end with two in-progress attempts for the pair —
violating "exactly one succeeds". Only a fully sequential second Start
(run after the first insert) observes the conflict. -/
theorem start_race_two_active_attempts :
    startCheck c9Store0 "Q" "S" 1 = Except.ok c9Quiz ∧
    startQuizAttempt c9Store0 "Q" "S" 1 "A1" =
      Except.ok ((startInsert c9Store0 c9Quiz "Q" "S" "A1" 1).1, c9Store1) ∧
    activeCount c9Store2 "Q" "S" = 2 ∧
    ¬ atMostOneActive c9Store2 ∧
    startQuizAttempt c9Store1 "Q" "S" 1 "A2" =
      Except.error
        { message := "You already have an active attempt for this quiz",
          statusCode := 400 } := by
  refine ⟨rfl, rfl, rfl, ?_, rfl⟩
  intro hinv
  exact absurd (hinv "Q" "S") (by decide)

theorem percentageOf_zero_zero : percentageOf 0 0 = JsNumber.nan := by
  simp [percentageOf, jsDiv, jsMulPos, mathRound]

theorem percentageOf_pos (score maxScore : Int) (h : 1 ≤ maxScore) :
    percentageOf score maxScore =
      JsNumber.num ((⌊100 * (score : ℚ) / (maxScore : ℚ) + 1 / 2⌋ : ℤ) : ℚ) := by
  have hne : ((maxScore : Int) : ℚ) ≠ 0 := by
    simp only [ne_eq, Int.cast_eq_zero]
    omega
  simp only [percentageOf, jsDiv, if_neg hne, jsMulPos, mathRound, jsRoundRat]
  have harg : (score : ℚ) / (maxScore : ℚ) * 100 = 100 * (score : ℚ) / (maxScore : ℚ) := by
    ring
  rw [harg]

/-- C10: Submit computes the percentage with no guard on `maxScore`. For
an attempt with `maxScore = 0` (empty question set), Submit still
succeeds, marks the attempt completed, and the percentage is NaN (from
`Math.round((0 / 0) * 100)`); for `maxScore ≥ 1` the division is
well-defined and the percentage is `Math.round(100 * score / maxScore)`,
i.e. `⌊100 * score / maxScore + 1/2⌋`. -/
theorem submit_percentage_no_guard (s : StoreState) (aid : String) (ans : AnswerMap)
    (sid : String) (now : Int) (attempt : QuizAttempt) (quiz : Quiz)
    (ha : findAttempt s aid = some attempt)
    (hq : findQuiz s attempt.quizId = some quiz)
    (hsid : attempt.studentId = sid)
    (hc : attempt.completed = false) :
    (attempt.maxScore = 0 → quiz.questions = [] →
      ∃ s2, submitQuizAttempt s aid ans sid now =
        Except.ok
          ({ attemptId := attempt.id, score := 0, maxScore := 0,
             percentage := JsNumber.nan,
             timeSpent := Int.fdiv (now - attempt.startedAt) 60000,
             completed := true }, s2)) ∧
    (1 ≤ attempt.maxScore →
      ∃ r s2, submitQuizAttempt s aid ans sid now = Except.ok (r, s2) ∧
        r.completed = true ∧
        r.percentage =
          JsNumber.num ((⌊100 * (r.score : ℚ) / (attempt.maxScore : ℚ) + 1 / 2⌋ : ℤ) : ℚ)) := by
  constructor
  · intro hmax hempty
    refine ⟨{ s with attempts := s.attempts.map (fun a =>
        if a.id == aid then submittedAttempt attempt quiz ans now else a) }, ?_⟩
    rw [submitQuizAttempt_ok_spec aid ans sid now ha hq hsid hc]
    rw [hempty, hmax]
    simp [matchedPoints, sumPoints, percentageOf_zero_zero]
  · intro hmax
    refine ⟨_, _, submitQuizAttempt_ok_spec aid ans sid now ha hq hsid hc, rfl, ?_⟩
    exact percentageOf_pos (matchedPoints quiz.questions ans) attempt.maxScore hmax

/-- Quiz with an empty question set for the C10 witness. -/
def c10Quiz : Quiz :=
  { id := "Q", title := "t", description := none, durationMins := 30,
    startTime := 0, endTime := 100, questions := [] }

/-- In-progress attempt with `maxScore = 0` for the C10 witness. -/
def c10Attempt : QuizAttempt :=
  { id := "A", quizId := "Q", studentId := "S", answers := [], score := 0,
    maxScore := 0, completed := false, startedAt := 1, submittedAt := none,
    timeSpent := none }

/-- Store for the C10 witness. -/
def c10Store : StoreState := { quizzes := [c10Quiz], attempts := [c10Attempt] }

/-- Witness for C10: submitting the `maxScore = 0` attempt succeeds with a
NaN percentage and a completed result. -/
theorem submit_percentage_no_guard_witness :
    ∃ s2, submitQuizAttempt c10Store "A" [] "S" 2 =
      Except.ok
        ({ attemptId := "A", score := 0, maxScore := 0,
           percentage := JsNumber.nan, timeSpent := 0, completed := true }, s2) :=
  (submit_percentage_no_guard c10Store "A" [] "S" 2 c10Attempt c10Quiz
    rfl rfl rfl rfl).1 rfl rfl

end QuizApp
